import Mathlib

set_option maxHeartbeats 1000000

/- Verification development for the boon-pipeline TMS transformation
   pipeline.  The definitions below are a shallow embedding of
   src/agents/transformation_agent.py, src/llm/entity_resolver.py,
   src/utils/text_utils.py, src/utils/datetime_utils.py and
   src/constants.py.  Strings are modelled as Lean strings / lists of
   characters with ASCII semantics for Python's str.upper, the regex
   character classes and whitespace. -/

/-- Python whitespace (the ASCII part of the re module class \s and of str.strip). -/
def isPySpace (c : Char) : Bool :=
  c == ' ' || c == '\t' || c == '\n' || c == '\r' || c == '\x0b' || c == '\x0c'

/-- ASCII letter, the regex class [A-Za-z]. -/
def isAsciiLetter (c : Char) : Bool :=
  ('A' ≤ c && c ≤ 'Z') || ('a' ≤ c && c ≤ 'z')

/-- ASCII digit, the regex class [0-9] (ASCII model of \d). -/
def isAsciiDigit (c : Char) : Bool :=
  '0' ≤ c && c ≤ '9'

/-- Python str.strip: drop whitespace from both ends. -/
def pyStrip (l : List Char) : List Char :=
  ((l.dropWhile isPySpace).reverse.dropWhile isPySpace).reverse

/-- Helper of splitWs: the accumulator holds the current word, reversed. -/
def splitWsAux (acc : List Char) : List Char → List (List Char)
  | [] => if acc.isEmpty then [] else [acc.reverse]
  | c :: cs =>
    if isPySpace c then
      (if acc.isEmpty then [] else [acc.reverse]) ++ splitWsAux [] cs
    else splitWsAux (c :: acc) cs

/-- Python str.split with no separator: split on whitespace runs, dropping empties. -/
def splitWs (l : List Char) : List (List Char) := splitWsAux [] l

/-- Pad a list of characters on the right with the character 'X' to length 4
    (Python str.ljust(4, 'X')). -/
def ljust4 (l : List Char) : List Char :=
  l ++ List.replicate (4 - l.length) 'X'

/-- First character of a word produced by splitWs (Python word[0]; the words are
    never empty, the default is unreachable). -/
def firstCharD (w : List Char) : Char := w.headD 'X'

/-- Core of the deterministic fallback code generator, operating on the list of
    words of the cleaned, uppercased input (transformation_agent.py lines 246-268,
    entity_resolver.py lines 149-171). -/
def basicCodeCore (words : List (List Char)) : List Char :=
  match words with
  | [] => "UNKN".data
  | [w] =>
    if w.length ≤ 4 then ljust4 w else w.take 4
  | _ =>
    let code := (words.take 4).map firstCharD
    let code :=
      if code.length < 4 then
        let code :=
          if (words.headD []).length > 1 then
            code ++ ((words.headD []).drop 1).take (4 - code.length)
          else code
        ljust4 code
      else code
    code.take 4

/-- Shallow embedding of TMSTransformationAgent._generate_basic_code
    (transformation_agent.py lines 229-268): uppercase, strip characters outside
    [A-Za-z0-9\s], split on whitespace, then build a 4-character code. -/
def generateBasicCode (text : String) : String :=
  if text.data.all isPySpace then "UNKN"
  else
    let clean := (text.data.map Char.toUpper).filter fun c => isAsciiLetter c || isAsciiDigit c || isPySpace c
    String.mk (basicCodeCore (splitWs clean))

/-- Shallow embedding of EntityResolver._generate_fallback_code
    (entity_resolver.py lines 132-171); the body is character for character the
    same algorithm as TMSTransformationAgent._generate_basic_code. -/
def generateFallbackCode (text : String) : String :=
  if text.data.all isPySpace then "UNKN"
  else
    let clean := (text.data.map Char.toUpper).filter fun c => isAsciiLetter c || isAsciiDigit c || isPySpace c
    String.mk (basicCodeCore (splitWs clean))

theorem generateFallbackCode_eq_generateBasicCode (s : String) :
    generateFallbackCode s = generateBasicCode s := rfl

/-- Characters allowed in a generated code: uppercase ASCII letters and ASCII
    digits (the padding character 'X' is an uppercase letter). -/
def isCodeChar (c : Char) : Bool := ('A' ≤ c && c ≤ 'Z') || isAsciiDigit c

theorem isCodeChar_X : isCodeChar 'X' = true := by decide

theorem ljust4_all_isCodeChar {l : List Char} (h : ∀ c ∈ l, isCodeChar c) :
    ∀ c ∈ ljust4 l, isCodeChar c := by
  intro c hc
  rcases List.mem_append.1 hc with h1 | h2
  · exact h c h1
  · rw [List.eq_of_mem_replicate h2]; decide

theorem ljust4_length (l : List Char) : (ljust4 l).length = max l.length 4 := by
  simp [ljust4]; omega

/-- Separator class in the phone regex: [-.\s]. -/
def isPhoneSep (c : Char) : Bool := c == '-' || c == '.' || isPySpace c

/-- Consume one optional character matching p (a greedy ? quantifier); returns
    the consumed characters and the rest. -/
def optChar (p : Char → Bool) : List Char → List Char × List Char
  | [] => ([], [])
  | c :: cs => if p c then ([c], cs) else ([], c :: cs)

/-- Consume exactly n ASCII digits, or fail. -/
def takeDigits : Nat → List Char → Option (List Char × List Char)
  | 0, l => some ([], l)
  | _ + 1, [] => none
  | n + 1, c :: cs =>
    if isAsciiDigit c then
      match takeDigits n cs with
      | some (ds, rest) => some (c :: ds, rest)
      | none => none
    else none

/-- Match of the phone regex \(?\d{3}\)?[-.\s]?\d{3}[-.\s]?\d{4} anchored at the
    front of the list; returns the matched characters (regex group 0). -/
def phoneMatchAt (l : List Char) : Option (List Char) :=
  let p1 := optChar (· == '(') l
  match takeDigits 3 p1.2 with
  | none => none
  | some (d1, l2) =>
    let p2 := optChar (· == ')') l2
    let p3 := optChar isPhoneSep p2.2
    match takeDigits 3 p3.2 with
    | none => none
    | some (d2, l5) =>
      let p4 := optChar isPhoneSep l5
      match takeDigits 4 p4.2 with
      | none => none
      | some (d3, _) => some (p1.1 ++ d1 ++ p2.1 ++ p3.1 ++ d2 ++ p4.1 ++ d3)

/-- Leftmost match of the phone regex (re.search). -/
def searchPhone : List Char → Option (List Char)
  | [] => none
  | c :: cs =>
    match phoneMatchAt (c :: cs) with
    | some m => some m
    | none => searchPhone cs

/-- Shallow embedding of text_utils.extract_phone_number (lines 9-28). -/
def extract_phone_number (text : String) : Option String :=
  if text = "" then none
  else (searchPhone text.data).map String.mk

/-- Match of the reference regex ([A-Za-z]+)(?:#|:)?\s*(\d+) anchored at the
    front of the list; returns (letters group, digits group). -/
def refMatchAt (l : List Char) : Option (List Char × List Char) :=
  match l with
  | [] => none
  | c :: _ =>
    if isAsciiLetter c then
      let letters := l.takeWhile isAsciiLetter
      let r1 := l.dropWhile isAsciiLetter
      let r2 := match r1 with
        | d :: rest => if d == '#' || d == ':' then rest else r1
        | [] => []
      let r3 := r2.dropWhile isPySpace
      let digits := r3.takeWhile isAsciiDigit
      if digits.isEmpty then none else some (letters, digits)
    else none

/-- Leftmost match of the reference regex (re.search). -/
def searchRefMatch : List Char → Option (List Char × List Char)
  | [] => none
  | c :: cs =>
    match refMatchAt (c :: cs) with
    | some m => some m
    | none => searchRefMatch cs

/-- Python re.split on the class [,;]: split at every comma or semicolon,
    keeping empty segments. -/
def splitDelims : List Char → List (List Char)
  | [] => [[]]
  | c :: cs =>
    if c == ',' || c == ';' then [] :: splitDelims cs
    else
      match splitDelims cs with
      | w :: rest => (c :: w) :: rest
      | [] => [[c]]

/-- Shallow embedding of text_utils.extract_reference_numbers (lines 90-124):
    split on commas/semicolons, strip each part, and for each non-empty part
    either take the first letters/digits match (type uppercased) or, if the part
    contains a digit, record the whole part with type "REF". -/
def extract_reference_numbers (text : String) : List (String × String) :=
  if text = "" then []
  else
    (splitDelims text.data).foldr
      (fun part acc =>
        let part := pyStrip part
        if part.isEmpty then acc
        else
          match searchRefMatch part with
          | some (letters, digits) =>
            (String.mk (letters.map Char.toUpper), String.mk digits) :: acc
          | none =>
            if part.any isAsciiDigit then ("REF", String.mk part) :: acc
            else acc)
      []

example : extract_reference_numbers "1289969, 10271" = [("REF", "1289969"), ("REF", "10271")] := by
  decide

example : extract_reference_numbers "PO# 12345; abc" = [("PO", "12345")] := by decide

example : extract_reference_numbers "PO#: 12345" = [("REF", "PO#: 12345")] := by decide

/-- Value of a list of ASCII digits. -/
def digitsVal (ds : List Char) : Nat :=
  ds.foldl (fun a c => a * 10 + (c.toNat - 48)) 0

/-- Model of a Python datetime value as produced by datetime.strptime /
    the datetime constructor.  The timezone offset (minutes) is kept for the
    %z directive; it is never used by the TMS formatting. -/
structure PyDateTime where
  year : Nat
  month : Nat
  day : Nat
  hour : Nat
  minute : Nat
  second : Nat
  microsecond : Nat
  tzOffsetMinutes : Option Int
deriving DecidableEq

def isLeapYear (y : Nat) : Bool :=
  y % 4 == 0 && (y % 100 != 0 || y % 400 == 0)

def daysInMonth (y m : Nat) : Nat :=
  if m == 2 then (if isLeapYear y then 29 else 28)
  else if m == 4 || m == 6 || m == 9 || m == 11 then 30
  else 31

/-- The datetime constructor: validates all fields, raising (modelled as none)
    on out-of-range values. -/
def mkPyDateTime (y m d h mi s us : Nat) (tz : Option Int) : Option PyDateTime :=
  if 1 ≤ y && y ≤ 9999 && 1 ≤ m && m ≤ 12 && 1 ≤ d && d ≤ daysInMonth y m
      && h ≤ 23 && mi ≤ 59 && s ≤ 59 && us ≤ 999999 then
    some ⟨y, m, d, h, mi, s, us, tz⟩
  else none

/-- Backtracking over the digit-count alternatives of a strptime directive
    (for example %m is the regex (\d{1,2}), tried greedily): each count is an
    exact number of digits to consume; the continuation is the rest of the
    format; on its failure the next (smaller) count is tried. -/
def tryCountsRaw {α : Type} (counts : List Nat) (l : List Char)
    (next : List Char → List Char → Option α) : Option α :=
  match counts with
  | [] => none
  | k :: rest =>
    match takeDigits k l with
    | some (ds, r) =>
      match next ds r with
      | some v => some v
      | none => tryCountsRaw rest l next
    | none => tryCountsRaw rest l next

/-- Numeric form of tryCountsRaw. -/
def tryCounts {α : Type} (counts : List Nat) (l : List Char)
    (next : Nat → List Char → Option α) : Option α :=
  tryCountsRaw counts l fun ds r => next (digitsVal ds) r

/-- Consume one literal character of a strptime format. -/
def litChar (c : Char) : List Char → Option (List Char)
  | [] => none
  | c' :: r => if c' == c then some r else none

/-- Whitespace in a strptime format matches one or more input whitespace characters. -/
def litSpace (l : List Char) : Option (List Char) :=
  match l with
  | c :: r => if isPySpace c then some (r.dropWhile isPySpace) else none
  | [] => none

/-- The %z directive: [+-]HH[:]MM, or the literal Z (offset in minutes). -/
def parseTzOffset (l : List Char) : Option (Int × List Char) :=
  match l with
  | [] => none
  | 'Z' :: r => some (0, r)
  | c :: r =>
    if c == '+' || c == '-' then
      match takeDigits 2 r with
      | some (h2, r2) =>
        let r3 := match r2 with
          | ':' :: rr => rr
          | _ => r2
        match takeDigits 2 r3 with
        | some (m2, r4) =>
          let mins : Int := (digitsVal h2) * 60 + digitsVal m2
          some (if c == '-' then -mins else mins, r4)
        | none => none
      | none => none
    else none

/-- strptime with format "%m/%d/%y %H:%M" (the CPython %y pivot: 0-68 maps to
    2000-2068, 69-99 to 1969-1999). -/
def strpFormatMDYhm (l : List Char) : Option PyDateTime :=
  tryCounts [2, 1] l fun mo l =>
    (litChar '/' l).bind fun l =>
      tryCounts [2, 1] l fun d l =>
        (litChar '/' l).bind fun l =>
          tryCounts [2, 1] l fun y2 l =>
            (litSpace l).bind fun l =>
              tryCounts [2, 1] l fun hh l =>
                (litChar ':' l).bind fun l =>
                  tryCounts [2, 1] l fun mi l =>
                    if l.isEmpty then
                      mkPyDateTime (if y2 ≤ 68 then 2000 + y2 else 1900 + y2)
                        mo d hh mi 0 0 none
                    else none

/-- strptime with format "%m/%d/%Y %H:%M". -/
def strpFormatMDYYYYhm (l : List Char) : Option PyDateTime :=
  tryCounts [2, 1] l fun mo l =>
    (litChar '/' l).bind fun l =>
      tryCounts [2, 1] l fun d l =>
        (litChar '/' l).bind fun l =>
          tryCounts [4, 3, 2, 1] l fun y l =>
            (litSpace l).bind fun l =>
              tryCounts [2, 1] l fun hh l =>
                (litChar ':' l).bind fun l =>
                  tryCounts [2, 1] l fun mi l =>
                    if l.isEmpty then mkPyDateTime y mo d hh mi 0 0 none
                    else none

/-- strptime with format "%Y-%m-%dT%H:%M:%S.%fZ" (ISO form; %f is 1-6 digits,
    scaled to microseconds). -/
def strpFormatIso (l : List Char) : Option PyDateTime :=
  tryCounts [4, 3, 2, 1] l fun y l =>
    (litChar '-' l).bind fun l =>
      tryCounts [2, 1] l fun mo l =>
        (litChar '-' l).bind fun l =>
          tryCounts [2, 1] l fun d l =>
            (litChar 'T' l).bind fun l =>
              tryCounts [2, 1] l fun hh l =>
                (litChar ':' l).bind fun l =>
                  tryCounts [2, 1] l fun mi l =>
                    (litChar ':' l).bind fun l =>
                      tryCounts [2, 1] l fun s l =>
                        (litChar '.' l).bind fun l =>
                          tryCountsRaw [6, 5, 4, 3, 2, 1] l fun ds l =>
                            (litChar 'Z' l).bind fun l =>
                              if l.isEmpty then
                                mkPyDateTime y mo d hh mi s
                                  (digitsVal ds * 10 ^ (6 - ds.length)) none
                              else none

/-- strptime with format "%Y-%m-%d %H:%M:%S". -/
def strpFormatStd (l : List Char) : Option PyDateTime :=
  tryCounts [4, 3, 2, 1] l fun y l =>
    (litChar '-' l).bind fun l =>
      tryCounts [2, 1] l fun mo l =>
        (litChar '-' l).bind fun l =>
          tryCounts [2, 1] l fun d l =>
            (litSpace l).bind fun l =>
              tryCounts [2, 1] l fun hh l =>
                (litChar ':' l).bind fun l =>
                  tryCounts [2, 1] l fun mi l =>
                    (litChar ':' l).bind fun l =>
                      tryCounts [2, 1] l fun s l =>
                        if l.isEmpty then mkPyDateTime y mo d hh mi s 0 none
                        else none

/-- strptime with format "%Y%m%d%H%M%S%z" (the TMS native compact form, for
    example 20221108000000-0700). -/
def strpFormatTms (l : List Char) : Option PyDateTime :=
  tryCounts [4, 3, 2, 1] l fun y l =>
    tryCounts [2, 1] l fun mo l =>
      tryCounts [2, 1] l fun d l =>
        tryCounts [2, 1] l fun hh l =>
          tryCounts [2, 1] l fun mi l =>
            tryCounts [2, 1] l fun s l =>
              (parseTzOffset l).bind fun p =>
                if p.2.isEmpty then mkPyDateTime y mo d hh mi s 0 (some p.1)
                else none

/-- Separator class of the permissive fallback date regex: slash or dash. -/
def isDateSep (c : Char) : Bool := c == '/' || c == '-'

/-- Match of the fallback date regex: one or two digits, a slash-or-dash
    separator, one or two digits, another separator, then two to four digits,
    anchored at the front of the list. -/
def dateMatchAt (l : List Char) : Option (Nat × Nat × Nat) :=
  tryCounts [2, 1] l fun mo l =>
    match l with
    | c :: r =>
      if isDateSep c then
        tryCounts [2, 1] r fun d l =>
          match l with
          | c2 :: r2 =>
            if isDateSep c2 then
              tryCounts [4, 3, 2] r2 fun y _ => some (mo, d, y)
            else none
          | [] => none
      else none
    | [] => none

/-- Leftmost match of the fallback date regex (re.search). -/
def searchDate : List Char → Option (Nat × Nat × Nat)
  | [] => none
  | c :: cs =>
    match dateMatchAt (c :: cs) with
    | some m => some m
    | none => searchDate cs

/-- Match of the fallback time regex (\d{1,2}):(\d{1,2}) anchored at the front. -/
def timeMatchAt (l : List Char) : Option (Nat × Nat) :=
  tryCounts [2, 1] l fun hh l =>
    (litChar ':' l).bind fun l =>
      tryCounts [2, 1] l fun mi _ => some (hh, mi)

/-- Leftmost match of the fallback time regex (re.search). -/
def searchTime : List Char → Option (Nat × Nat)
  | [] => none
  | c :: cs =>
    match timeMatchAt (c :: cs) with
    | some m => some m
    | none => searchTime cs

/-- The permissive regex fallback of parse_datetime (datetime_utils.py lines
    38-65): locate a month/day/year triple anywhere (2-digit years map via the
    source's own pivot: below 50 to 2000s, otherwise 1900s) and an optional
    hour:minute (default midnight). -/
def regexFallbackParse (l : List Char) : Option PyDateTime :=
  match searchDate l with
  | none => none
  | some (mo, d, y) =>
    let y := if y < 100 then (if y < 50 then y + 2000 else y + 1900) else y
    let t := match searchTime l with
      | some t => t
      | none => (0, 0)
    mkPyDateTime y mo d t.1 t.2 0 0 none

/-- Shallow embedding of datetime_utils.parse_datetime (lines 11-68): try the
    five strptime formats in order, then the permissive regex fallback. -/
def parse_datetime (date_str : String) : Option PyDateTime :=
  if date_str.data.all isPySpace then none
  else
    match strpFormatMDYhm date_str.data with
    | some dt => some dt
    | none =>
      match strpFormatMDYYYYhm date_str.data with
      | some dt => some dt
      | none =>
        match strpFormatIso date_str.data with
        | some dt => some dt
        | none =>
          match strpFormatStd date_str.data with
          | some dt => some dt
          | none =>
            match strpFormatTms date_str.data with
            | some dt => some dt
            | none => regexFallbackParse date_str.data

/-- Zero-padded 2-digit decimal rendering (strftime %m, %d, %H, %M, %S). -/
def pad2 (n : Nat) : String :=
  if n < 10 then "0" ++ toString n else toString n

/-- Zero-padded 4-digit decimal rendering (strftime %Y). -/
def pad4 (n : Nat) : String :=
  if n < 10 then "000" ++ toString n
  else if n < 100 then "00" ++ toString n
  else if n < 1000 then "0" ++ toString n
  else toString n

/-- strftime with Constants.TMS_TIME_FORMAT = "%Y-%m-%dT%H:%M:%S.000Z": fixed
    millisecond field and literal Z suffix, the timezone of the value discarded. -/
def formatPyDateTime (dt : PyDateTime) : String :=
  pad4 dt.year ++ "-" ++ pad2 dt.month ++ "-" ++ pad2 dt.day ++ "T"
    ++ pad2 dt.hour ++ ":" ++ pad2 dt.minute ++ ":" ++ pad2 dt.second ++ ".000Z"

/-- Shallow embedding of datetime_utils.format_datetime_for_tms (lines 71-84). -/
def format_datetime_for_tms : Option PyDateTime → Option String
  | none => none
  | some dt => some (formatPyDateTime dt)

example : parse_datetime "01/28/25 11:00" = some ⟨2025, 1, 28, 11, 0, 0, 0, none⟩ := by decide

example : parse_datetime "20221108000000-0700" =
    some ⟨2022, 11, 8, 0, 0, 0, 0, some (-420)⟩ := by decide

example : parse_datetime "Jan nope" = none := by decide

/-- JSON values as produced by json.loads (numbers restricted to integers;
    no claim depends on float payloads). -/
inductive Json where
  | null : Json
  | bool (b : Bool) : Json
  | num (n : Int) : Json
  | str (s : String) : Json
  | arr (elems : List Json) : Json
  | obj (fields : List (String × Json)) : Json

/-- Python exceptions that the embedded pipeline can raise. -/
inductive PyErr where
  | keyError (k : String) : PyErr
  | typeError : PyErr
  | attributeError : PyErr
  | indexError : PyErr
deriving DecidableEq

/-- Python subscript with a string key: KeyError on a dict without the key,
    TypeError on any non-dict value. -/
def pyLookup (j : Json) (k : String) : Except PyErr Json :=
  match j with
  | .obj kvs =>
    match kvs.find? (fun p => p.1 == k) with
    | some p => .ok p.2
    | none => .error (.keyError k)
  | _ => .error .typeError

/-- Python len(): defined for lists, strings and dicts only. -/
def pyLen (j : Json) : Except PyErr Nat :=
  match j with
  | .arr l => .ok l.length
  | .str s => .ok s.length
  | .obj kvs => .ok kvs.length
  | _ => .error .typeError

/-- Python subscript with an integer index: list element, one-character string
    for strings, KeyError for dicts (an int is not a stored key), TypeError
    otherwise. -/
def pyIndexNat (j : Json) (i : Nat) : Except PyErr Json :=
  match j with
  | .arr l =>
    match l.get? i with
    | some e => .ok e
    | none => .error .indexError
  | .str s =>
    match s.data.get? i with
    | some c => .ok (.str (String.mk [c]))
    | none => .error .indexError
  | .obj _ => .error (.keyError "int")
  | _ => .error .typeError

/-- Python truthiness of a JSON value. -/
def pyTruthy (j : Json) : Bool :=
  match j with
  | .null => false
  | .bool b => b
  | .num n => n != 0
  | .str s => s ≠ ""
  | .arr l => !l.isEmpty
  | .obj kvs => !kvs.isEmpty

/-- Python dict.get(key, default): AttributeError when the receiver is not a
    dict. -/
def pyDictGet (j : Json) (k : String) (dflt : Json) : Except PyErr Json :=
  match j with
  | .obj kvs =>
    match kvs.find? (fun p => p.1 == k) with
    | some p => .ok p.2
    | none => .ok dflt
  | _ => .error .attributeError

/-- Truthiness of an optional string field of the extraction document
    (absent or empty is falsy). -/
def optTruthy : Option String → Bool
  | some s => s ≠ ""
  | none => false

namespace Constants

def PICKUP_STOP_TYPE : String := "PUP"
def DELIVERY_STOP_TYPE : String := "DRP"
def PICKUP_EVENT_CODE : String := "LLD"
def DELIVERY_EVENT_CODE : String := "LUL"
def TRAILER_TYPE_FLAT : String := "FLAT"
def TRAILER_TYPE_REEFER : String := "REEFER"
def TRAILER_TYPE_VAN : String := "VAN"
def REV_TYPE1_LOGCOM : String := "LOGCOM"
def REV_TYPE2_HOUSE : String := "HOUSE"
def REV_TYPE3_IN : String := "IN"
def REV_TYPE4_OTR : String := "OTR"
def REF_BL : String := "BL#"
def REF_LOAD : String := "LOAD"
def REF_PO : String := "PO#"
def REF_PU : String := "PU#"
def REF_REF : String := "REF"
def REF_SID : String := "SID"
def ORDER_STATUS_AVAILABLE : String := "AVL"
def CHARGE_ITEM_CODE_LHF : String := "LHF"
def CHARGE_RATE_UNIT_FLT : String := "FLT"
def TEMPERATURE_UNITS_FRNHGT : String := "Frnhgt"
def COMMODITY_FAK : String := "FAK"
def WEIGHT_UNIT_LBS : String := "LBS"
def CURRENCY_US : String := "US$"

def EQUIPMENT_TYPE_MAPPING : List (String × String) :=
  [("Van", TRAILER_TYPE_VAN), ("Reefer", TRAILER_TYPE_REEFER),
   ("Flat", TRAILER_TYPE_FLAT), ("53VR", TRAILER_TYPE_VAN)]

def REFERENCE_TYPE_MAPPING : List (String × String) :=
  [("PO", REF_PO), ("BL", REF_BL), ("LOAD", REF_LOAD),
   ("PU", REF_PU), ("REF", REF_REF), ("SID", REF_SID)]

end Constants

/-- One entry of shipper_section of the extraction document.  Fields are
    optional: Python reads them with dict.get and a per-site default. -/
structure ShipperItem where
  ship_from_company : Option String := none
  ship_from_address : Option String := none
  pickup_number : Option String := none
  pickup_instructions : Option String := none
  pickup_appointment_start_datetime : Option String := none
  pickup_appointment_end_datetime : Option String := none

/-- One entry of receiver_section of the extraction document. -/
structure ReceiverItem where
  receiver_company : Option String := none
  receiver_address : Option String := none
  receiver_delivery_number : Option String := none
  receiver_instructions : Option String := none
  receiver_appointment_start_datetime : Option String := none
  receiver_appointment_end_datetime : Option String := none

/-- The extraction document (pipeline input). -/
structure ExtractionDoc where
  customer_name : Option String := none
  customer_address : Option String := none
  shipper_section : List ShipperItem := []
  receiver_section : List ReceiverItem := []
  booking_confirmation_number : Option String := none
  reference_number : Option String := none
  total_rate : Option String := none
  freight_rate : Option String := none
  equipment_type : Option String := none

/-- One reference entry attached to a stop. -/
structure RefEntry where
  referenceType : String
  value : String
  referenceTable : String
deriving DecidableEq

/-- One stop record as assembled by _process_stops.  companyID is a raw JSON
    value: it is copied from the entity mapping without type validation. -/
structure Stop where
  eventCode : String
  stopType : String
  companyID : Json
  sequence : Nat
  billable : Bool
  earliestDate : Option String
  latestDate : Option String
  arrivalDate : Option String
  departureDate : Option String
  phoneNumber : Option String
  referenceNumbers : List RefEntry

/-- The deterministic fallback entity mapping built in the except branch of
    _extract_entities (transformation_agent.py lines 213-225). -/
def fallbackEntityMappings (doc : ExtractionDoc) : Json :=
  .obj
    [("customer_code", .str (generateBasicCode (doc.customer_name.getD "Unknown"))),
     ("shipper_codes",
       .arr (doc.shipper_section.map fun sh =>
         .str (generateBasicCode (sh.ship_from_company.getD "UNKN")))),
     ("receiver_codes",
       .arr (doc.receiver_section.map fun r =>
         .str (generateBasicCode (r.receiver_company.getD "UNKN"))))]

/-- Shallow embedding of the _extract_entities stage (transformation_agent.py
    lines 142-227).  The oracle call together with json.loads is modelled by an
    Option Json argument: some j when the response text parses as JSON j, none
    when the call or the parse raises (then the except branch installs the
    deterministic fallback mapping).  A parsed response is stored verbatim. -/
def extractEntities (oracle : Option Json) (doc : ExtractionDoc) : Json :=
  match oracle with
  | some j => j
  | none => fallbackEntityMappings doc

/-- First run of 4 consecutive uppercase ASCII letters (the regex [A-Z]{4},
    leftmost match, group 0). -/
def firstUpperRun4 : List Char → Option (List Char)
  | [] => none
  | c :: cs =>
    let four := (c :: cs).take 4
    if four.length = 4 && four.all Char.isUpper then some four
    else firstUpperRun4 cs

/-- First run of 4 consecutive ASCII letters of either case (claim-side notion:
    a 4-letter run of the text as written). -/
def firstAlphaRun4 : List Char → Option (List Char)
  | [] => none
  | c :: cs =>
    let four := (c :: cs).take 4
    if four.length = 4 && four.all isAsciiLetter then some four
    else firstAlphaRun4 cs

/-- Shallow embedding of the code extraction of
    EntityResolver._generate_code_with_llm (entity_resolver.py lines 122-130):
    search the UPPERCASED oracle response for the first 4-uppercase-letter run;
    on failure fall back to _generate_fallback_code applied to the name. -/
def llmGeneratedCode (response : String) (name : String) : String :=
  match firstUpperRun4 (response.data.map Char.toUpper) with
  | some run => String.mk run
  | none => generateFallbackCode name

/-- Constants.REFERENCE_TYPE_MAPPING.get(ref_type, Constants.REF_REF). -/
def mapRefType (t : String) : String :=
  match Constants.REFERENCE_TYPE_MAPPING.find? (fun p => p.1 == t) with
  | some p => p.2
  | none => Constants.REF_REF

/-- Reference entries extracted from a pickup/delivery number field
    (transformation_agent.py lines 313-319 and 370-376). -/
def stopRefsFrom (numField : String) : List RefEntry :=
  (extract_reference_numbers numField).map fun p =>
    { referenceType := mapRefType p.1, value := p.2, referenceTable := "stops" }

/-- The references collected from the pickup/delivery number field, guarded by
    its truthiness (transformation_agent.py lines 312-319 and 369-376). -/
def extractedStopRefs (numField : String) : List RefEntry :=
  if numField ≠ "" then stopRefsFrom numField else []

/-- Reference list of a shipper stop (transformation_agent.py lines 311-327):
    the extracted references, then the booking confirmation number appended
    unconditionally as a LOAD reference whenever it is truthy. -/
def shipperRefs (pickup_number : String) (booking : Option String) : List RefEntry :=
  let refs := extractedStopRefs pickup_number
  match booking with
  | some b =>
    if b ≠ "" then
      refs ++ [{ referenceType := Constants.REF_LOAD, value := b, referenceTable := "stops" }]
    else refs
  | none => refs

/-- Reference list of a receiver stop (transformation_agent.py lines 368-384):
    the extracted references, then the booking confirmation number appended as
    a LOAD reference only when truthy and not already present among the
    reference values. -/
def receiverRefs (delivery_number : String) (booking : Option String) : List RefEntry :=
  let refs := extractedStopRefs delivery_number
  match booking with
  | some b =>
    if b ≠ "" && !refs.any (fun r => r.value == b) then
      refs ++ [{ referenceType := Constants.REF_LOAD, value := b, referenceTable := "stops" }]
    else refs
  | none => refs

/-- The conditional expression of transformation_agent.py line 292:
    entity_mappings["shipper_codes"][i] if i < len(...) else "UNKN"
    (the guard is evaluated first, so the lookup can raise). -/
def shipperCompanyCode (em : Json) (i : Nat) : Except PyErr Json := do
  let codes ← pyLookup em "shipper_codes"
  let n ← pyLen codes
  if i < n then pyIndexNat codes i else pure (.str "UNKN")

/-- The conditional expression of transformation_agent.py line 349 for
    receiver_codes. -/
def receiverCompanyCode (em : Json) (i : Nat) : Except PyErr Json := do
  let codes ← pyLookup em "receiver_codes"
  let n ← pyLen codes
  if i < n then pyIndexNat codes i else pure (.str "UNKN")

/-- One shipper stop (transformation_agent.py lines 291-345). -/
def buildShipperStop (em : Json) (booking : Option String) (i seq : Nat)
    (sh : ShipperItem) : Except PyErr Stop := do
  let cc ← shipperCompanyCode em i
  let start_dt := parse_datetime (sh.pickup_appointment_start_datetime.getD "")
  let end_dt := parse_datetime (sh.pickup_appointment_end_datetime.getD "")
  let earliest := format_datetime_for_tms start_dt
  let latest := format_datetime_for_tms end_dt
  pure
    { eventCode := Constants.PICKUP_EVENT_CODE
      stopType := Constants.PICKUP_STOP_TYPE
      companyID := cc
      sequence := seq
      billable := true
      earliestDate := earliest
      latestDate := latest
      arrivalDate := earliest
      departureDate := latest
      phoneNumber := extract_phone_number (sh.pickup_instructions.getD "")
      referenceNumbers := shipperRefs (sh.pickup_number.getD "") booking }

/-- One receiver stop (transformation_agent.py lines 348-402). -/
def buildReceiverStop (em : Json) (booking : Option String) (i seq : Nat)
    (r : ReceiverItem) : Except PyErr Stop := do
  let cc ← receiverCompanyCode em i
  let start_dt := parse_datetime (r.receiver_appointment_start_datetime.getD "")
  let end_dt := parse_datetime (r.receiver_appointment_end_datetime.getD "")
  let earliest := format_datetime_for_tms start_dt
  let latest := format_datetime_for_tms end_dt
  pure
    { eventCode := Constants.DELIVERY_EVENT_CODE
      stopType := Constants.DELIVERY_STOP_TYPE
      companyID := cc
      sequence := seq
      billable := true
      earliestDate := earliest
      latestDate := latest
      arrivalDate := earliest
      departureDate := latest
      phoneNumber := extract_phone_number (r.receiver_instructions.getD "")
      referenceNumbers := receiverRefs (r.receiver_delivery_number.getD "") booking }

/-- The shipper loop: enumerate shipper items, sequence counter incremented
    once per stop. -/
def buildShipperStops (em : Json) (booking : Option String) :
    List ShipperItem → Nat → Nat → Except PyErr (List Stop)
  | [], _, _ => pure []
  | sh :: rest, i, seq => do
    let s ← buildShipperStop em booking i seq sh
    let tail ← buildShipperStops em booking rest (i + 1) (seq + 1)
    pure (s :: tail)

/-- The receiver loop, continuing the same sequence counter. -/
def buildReceiverStops (em : Json) (booking : Option String) :
    List ReceiverItem → Nat → Nat → Except PyErr (List Stop)
  | [], _, _ => pure []
  | r :: rest, i, seq => do
    let s ← buildReceiverStop em booking i seq r
    let tail ← buildReceiverStops em booking rest (i + 1) (seq + 1)
    pure (s :: tail)

/-- Both loops of _process_stops, before the post-loop repair
    (transformation_agent.py lines 287-402). -/
def buildStopsRaw (em : Json) (doc : ExtractionDoc) : Except PyErr (List Stop) := do
  let ss ← buildShipperStops em doc.booking_confirmation_number doc.shipper_section 0 1
  let rs ← buildReceiverStops em doc.booking_confirmation_number doc.receiver_section 0
    (doc.shipper_section.length + 1)
  pure (ss ++ rs)

/-- In-place update of stop_data[0] to a pickup stop. -/
def setFirstPickup : List Stop → List Stop
  | [] => []
  | s :: rest =>
    { s with stopType := Constants.PICKUP_STOP_TYPE,
             eventCode := Constants.PICKUP_EVENT_CODE } :: rest

/-- In-place update of stop_data[-1] to a delivery stop. -/
def setLastDelivery : List Stop → List Stop
  | [] => []
  | [s] =>
    [{ s with stopType := Constants.DELIVERY_STOP_TYPE,
              eventCode := Constants.DELIVERY_EVENT_CODE }]
  | s :: rest => s :: setLastDelivery rest

/-- The post-loop repair of _process_stops (transformation_agent.py lines
    404-422): scan for pickup/delivery stop types (an if/elif chain per stop),
    then force stop_data[0] to pickup when none was found and stop_data[-1] to
    delivery when none was found. -/
def repairStops (l : List Stop) : List Stop :=
  let pickup_found := l.any fun s => s.stopType == Constants.PICKUP_STOP_TYPE
  let delivery_found := l.any fun s =>
    !(s.stopType == Constants.PICKUP_STOP_TYPE)
      && s.stopType == Constants.DELIVERY_STOP_TYPE
  let l1 := if !pickup_found && !l.isEmpty then setFirstPickup l else l
  if !delivery_found && !l1.isEmpty then setLastDelivery l1 else l1

/-- Shallow embedding of the _process_stops stage (transformation_agent.py
    lines 270-428). -/
def processStops (em : Json) (doc : ExtractionDoc) : Except PyErr (List Stop) :=
  (buildStopsRaw em doc).map repairStops

/-- Shallow embedding of the _determine_rev_types stage (transformation_agent.py
    lines 430-496): the oracle response is modelled by Option Json (none when
    the call or json.loads raises, triggering the except-branch defaults);
    a parsed response is stored verbatim. -/
def determineRevTypes (oracle : Option Json) : Json :=
  match oracle with
  | some j => j
  | none =>
    .obj
      [("revType1", .str Constants.REV_TYPE1_LOGCOM),
       ("revType2", .str Constants.REV_TYPE2_HOUSE),
       ("revType3", .str Constants.REV_TYPE3_IN),
       ("revType4", .str Constants.REV_TYPE4_OTR)]

/-- Check that needle occurs at the front of hay. -/
def startsWithList : List Char → List Char → Bool
  | [], _ => true
  | _ :: _, [] => false
  | a :: as, b :: bs => a == b && startsWithList as bs

/-- Python substring containment (the in operator on strings). -/
def containsSub (needle : List Char) : List Char → Bool
  | [] => needle.isEmpty
  | c :: cs => startsWithList needle (c :: cs) || containsSub needle cs

/-- The valid commodity codes, in declaration order (transformation_agent.py
    lines 552-555). -/
def validCommodities : List String :=
  ["BRICK", "BUILDING", "DRYFOOD", "FAK", "FRZFOOD", "FZN&RFR", "REFOOD", "STEEL", "STONE"]

/-- Shallow embedding of the _determine_commodity stage (transformation_agent.py
    lines 498-576): scan the raw oracle response for the first valid commodity
    code, in declaration order, that occurs as a substring; default FAK.  A
    failed oracle call yields the empty response, hence FAK. -/
def determineCommodity (response : String) : String :=
  match validCommodities.find? (fun c => containsSub c.data response.data) with
  | some c => c
  | none => Constants.COMMODITY_FAK

example : determineCommodity "The answer is REFOOD." = "REFOOD" := by decide

example : determineCommodity "" = "FAK" := by decide

/-- The assembled TMS order entry request (transformation_agent.py lines
    627-654).  startDate (wall-clock time) and chargeRate (Python float
    parsing) are outside the scope of the modelled claims and are omitted;
    neither can raise in the source (the rate parse has its own try/except
    fallback), so their omission does not affect which inputs produce a
    request. -/
structure TmsRequest where
  shipper : Json
  consignee : Json
  billTo : Json
  orderBy : Json
  weightUnit : String
  commodity : String
  temperatureUnits : String
  chargeItemCode : String
  chargeRateUnit : String
  currency : String
  remark : Option String
  stops : List Stop
  trailerType1 : String
  revType1 : Json
  revType2 : Json
  revType3 : Json
  revType4 : Json
  referenceType1 : Option String
  referenceType2 : Option String
  referenceType3 : Option String
  referenceNumber1 : Option String
  referenceNumber2 : Option String
  referenceNumber3 : Option String
  status : String

/-- Shallow embedding of the _create_tms_request stage (transformation_agent.py
    lines 578-660), evaluating the dict-literal entries in source order. -/
def createTmsRequest (doc : ExtractionDoc) (em : Json) (stop_data : List Stop)
    (rev_types : Json) (commodity_code : String) : Except PyErr TmsRequest := do
  let booking := doc.booking_confirmation_number
  let reference_number := doc.reference_number
  let references : List (String × String) :=
    (match booking with
     | some b => if b ≠ "" then [(Constants.REF_LOAD, b)] else []
     | none => []) ++
    (match reference_number with
     | some r => if r ≠ "" then [(Constants.REF_REF, r)] else []
     | none => [])
  let remarks : List String :=
    (doc.shipper_section.filterMap fun sh =>
      match sh.pickup_instructions with
      | some p => if p ≠ "" then some ("Pickup: " ++ p) else none
      | none => none) ++
    (doc.receiver_section.filterMap fun r =>
      match r.receiver_instructions with
      | some p => if p ≠ "" then some ("Delivery: " ++ p) else none
      | none => none)
  let remark := if remarks.isEmpty then none else some (String.intercalate " | " remarks)
  let shipperCodes ← pyLookup em "shipper_codes"
  let shipper ← if pyTruthy shipperCodes then pyIndexNat shipperCodes 0
                else pure (.str "UNKN")
  let receiverCodes ← pyLookup em "receiver_codes"
  let consignee ← if pyTruthy receiverCodes then pyIndexNat receiverCodes 0
                  else pure (.str "UNKN")
  let customerCode ← pyLookup em "customer_code"
  let rt1 ← pyDictGet rev_types "revType1" (.str Constants.REV_TYPE1_LOGCOM)
  let rt2 ← pyDictGet rev_types "revType2" (.str Constants.REV_TYPE2_HOUSE)
  let rt3 ← pyDictGet rev_types "revType3" (.str Constants.REV_TYPE3_IN)
  let rt4 ← pyDictGet rev_types "revType4" (.str Constants.REV_TYPE4_OTR)
  pure
    { shipper := shipper
      consignee := consignee
      billTo := customerCode
      orderBy := customerCode
      weightUnit := Constants.WEIGHT_UNIT_LBS
      commodity := commodity_code
      temperatureUnits := Constants.TEMPERATURE_UNITS_FRNHGT
      chargeItemCode := Constants.CHARGE_ITEM_CODE_LHF
      chargeRateUnit := Constants.CHARGE_RATE_UNIT_FLT
      currency := Constants.CURRENCY_US
      remark := remark
      stops := stop_data
      trailerType1 :=
        (match Constants.EQUIPMENT_TYPE_MAPPING.find?
            (fun p => p.1 == doc.equipment_type.getD "Van") with
         | some p => p.2
         | none => Constants.TRAILER_TYPE_VAN)
      revType1 := rt1
      revType2 := rt2
      revType3 := rt3
      revType4 := rt4
      referenceType1 := (references.get? 0).map Prod.fst
      referenceType2 := (references.get? 1).map Prod.fst
      referenceType3 := (references.get? 2).map Prod.fst
      referenceNumber1 := (references.get? 0).map Prod.snd
      referenceNumber2 := (references.get? 1).map Prod.snd
      referenceNumber3 := (references.get? 2).map Prod.snd
      status := Constants.ORDER_STATUS_AVAILABLE }

/-- The whole agent workflow (extract_entities, process_stops,
    determine_rev_types, determine_commodity, create_tms_request in that
    order), with the three oracle interactions as explicit inputs: the parse
    outcome of the entity-resolution response, the parse outcome of the
    revenue-type response, and the raw commodity response text. -/
def runPipeline (entOracle revOracle : Option Json) (comResponse : String)
    (doc : ExtractionDoc) : Except PyErr TmsRequest := do
  let em := extractEntities entOracle doc
  let stop_data ← processStops em doc
  let rev_types := determineRevTypes revOracle
  let commodity_code := determineCommodity comResponse
  createTmsRequest doc em stop_data rev_types commodity_code

theorem char_le_iff {a b : Char} : a ≤ b ↔ a.toNat ≤ b.toNat := Iff.rfl

theorem toNat_ofNat_valid (n : Nat) (h : n.isValidChar) : (Char.ofNat n).toNat = n := by
  rw [Char.ofNat, dif_pos h]
  rfl

theorem toUpper_eq_of_lower (x : Char) (h : 97 ≤ x.toNat ∧ x.toNat ≤ 122) :
    x.toUpper = Char.ofNat (x.toNat - 32) := by
  rw [Char.toUpper]
  simp only [ge_iff_le, if_pos h]

theorem toUpper_eq_self (x : Char) (h : ¬(97 ≤ x.toNat ∧ x.toNat ≤ 122)) :
    x.toUpper = x := by
  rw [Char.toUpper]
  simp only [ge_iff_le, if_neg h]

/-- An ASCII letter in the image of Char.toUpper is an uppercase letter. -/
theorem isAsciiLetter_toUpper_upper (x : Char) (h : isAsciiLetter x.toUpper = true) :
    ('A' ≤ x.toUpper && x.toUpper ≤ 'Z') = true := by
  have ha : ('A' : Char).toNat = 65 := by decide
  have hz : ('Z' : Char).toNat = 90 := by decide
  have hb : ('a' : Char).toNat = 97 := by decide
  have hy : ('z' : Char).toNat = 122 := by decide
  by_cases hx : 97 ≤ x.toNat ∧ x.toNat ≤ 122
  · have hv : (x.toNat - 32).isValidChar := by
      left
      omega
    have ht : (Char.ofNat (x.toNat - 32)).toNat = x.toNat - 32 := toNat_ofNat_valid _ hv
    rw [toUpper_eq_of_lower x hx] at h ⊢
    simp only [Bool.and_eq_true, decide_eq_true_eq, char_le_iff]
    omega
  · rw [toUpper_eq_self x hx] at h ⊢
    simp only [isAsciiLetter, Bool.or_eq_true, Bool.and_eq_true, decide_eq_true_eq,
      char_le_iff] at h
    simp only [Bool.and_eq_true, decide_eq_true_eq, char_le_iff]
    omega

theorem toUpper_code_char (x : Char)
    (h : (isAsciiLetter x.toUpper || isAsciiDigit x.toUpper) = true) :
    isCodeChar x.toUpper = true := by
  rcases Bool.or_eq_true_iff.1 h with hl | hd
  · exact Bool.or_eq_true_iff.2 (Or.inl (isAsciiLetter_toUpper_upper x hl))
  · exact Bool.or_eq_true_iff.2 (Or.inr hd)

theorem splitWsAux_chars (p : Char → Prop) :
    ∀ (l acc : List Char), (∀ c ∈ acc, p c) →
      (∀ c ∈ l, isPySpace c = false → p c) →
      ∀ w ∈ splitWsAux acc l, ∀ c ∈ w, p c := by
  intro l
  induction l with
  | nil =>
    intro acc hacc _ w hw c hc
    simp only [splitWsAux] at hw
    by_cases he : acc.isEmpty
    · simp [he] at hw
    · rw [if_neg he, List.mem_singleton] at hw
      subst hw
      exact hacc c (List.mem_reverse.1 hc)
  | cons a cs ih =>
    intro acc hacc hl w hw c hc
    by_cases ha : isPySpace a
    · rw [splitWsAux, if_pos ha] at hw
      rcases List.mem_append.1 hw with hw1 | hw1
      · by_cases he : acc.isEmpty
        · simp [he] at hw1
        · rw [if_neg he, List.mem_singleton] at hw1
          subst hw1
          exact hacc c (List.mem_reverse.1 hc)
      · refine ih [] (by simp) ?_ w hw1 c hc
        intro d hd hds
        exact hl d (List.mem_cons_of_mem a hd) hds
    · rw [splitWsAux, if_neg ha] at hw
      refine ih (a :: acc) ?_ ?_ w hw c hc
      · intro d hd
        rcases List.mem_cons.1 hd with rfl | hd2
        · exact hl d (List.mem_cons_self _ _) (by simpa using ha)
        · exact hacc d hd2
      · intro d hd hds
        exact hl d (List.mem_cons_of_mem a hd) hds

theorem splitWs_chars (l : List Char) :
    ∀ w ∈ splitWs l, ∀ c ∈ w, c ∈ l ∧ isPySpace c = false := by
  intro w hw c hc
  exact splitWsAux_chars (fun c => c ∈ l ∧ isPySpace c = false) l [] (by simp)
    (fun d hd hds => ⟨hd, hds⟩) w hw c hc

theorem basicCodeCore_single (w : List Char) :
    basicCodeCore [w] = if w.length ≤ 4 then ljust4 w else w.take 4 := rfl

theorem basicCodeCore_multi (w1 w2 : List Char) (ws : List (List Char)) :
    basicCodeCore (w1 :: w2 :: ws) =
      (if (((w1 :: w2 :: ws).take 4).map firstCharD).length < 4 then
        ljust4
          (if w1.length > 1 then
            ((w1 :: w2 :: ws).take 4).map firstCharD ++
              (w1.drop 1).take (4 - (((w1 :: w2 :: ws).take 4).map firstCharD).length)
          else ((w1 :: w2 :: ws).take 4).map firstCharD)
      else ((w1 :: w2 :: ws).take 4).map firstCharD).take 4 := rfl

theorem basicCodeCore_length : ∀ words : List (List Char), (basicCodeCore words).length = 4
  | [] => by decide
  | [w] => by
    rw [basicCodeCore_single]
    by_cases h : w.length ≤ 4
    · rw [if_pos h, ljust4_length]
      omega
    · rw [if_neg h, List.length_take]
      omega
  | w1 :: w2 :: ws => by
    rw [basicCodeCore_multi]
    by_cases h : (((w1 :: w2 :: ws).take 4).map firstCharD).length < 4
    · rw [if_pos h, List.length_take, ljust4_length]
      omega
    · rw [if_neg h, List.length_take]
      omega

theorem basicCodeCore_chars :
    ∀ words : List (List Char), (∀ w ∈ words, ∀ c ∈ w, isCodeChar c = true) →
      ∀ c ∈ basicCodeCore words, isCodeChar c = true
  | [], _ => by
    intro c hc
    have : ∀ c ∈ "UNKN".data, isCodeChar c = true := by decide
    exact this c hc
  | [w], h => by
    rw [basicCodeCore_single]
    by_cases hl : w.length ≤ 4
    · rw [if_pos hl]
      exact ljust4_all_isCodeChar (h w (List.mem_singleton_self w))
    · rw [if_neg hl]
      intro c hc
      exact h w (List.mem_singleton_self w) c (List.take_subset _ _ hc)
  | w1 :: w2 :: ws, h => by
    rw [basicCodeCore_multi]
    have hcode0 : ∀ c ∈ ((w1 :: w2 :: ws).take 4).map firstCharD, isCodeChar c = true := by
      intro c hc
      rcases List.mem_map.1 hc with ⟨w, hw, rfl⟩
      have hw2 : w ∈ w1 :: w2 :: ws := List.take_subset _ _ hw
      cases w with
      | nil => decide
      | cons a as =>
        have := h _ hw2 a (List.mem_cons_self _ _)
        simpa [firstCharD] using this
    intro c hc
    have hc2 := List.take_subset _ _ hc
    by_cases hlt : (((w1 :: w2 :: ws).take 4).map firstCharD).length < 4
    · rw [if_pos hlt] at hc2
      refine ljust4_all_isCodeChar ?_ c hc2
      intro d hd
      by_cases hw1 : w1.length > 1
      · rw [if_pos hw1] at hd
        rcases List.mem_append.1 hd with hd1 | hd1
        · exact hcode0 d hd1
        · have : d ∈ w1 := List.drop_subset _ _ (List.take_subset _ _ hd1)
          exact h w1 (List.mem_cons_self _ _) d this
      · rw [if_neg hw1] at hd
        exact hcode0 d hd
    · rw [if_neg hlt] at hc2
      exact hcode0 c hc2

theorem generateBasicCode_spec (s : String) :
    (generateBasicCode s).length = 4 ∧ ∀ c ∈ (generateBasicCode s).data, isCodeChar c = true := by
  unfold generateBasicCode
  by_cases hs : s.data.all isPySpace
  · rw [if_pos hs]
    exact ⟨by decide, by decide⟩
  · rw [if_neg hs]
    have hwords : ∀ w ∈ splitWs ((s.data.map Char.toUpper).filter
        fun c => isAsciiLetter c || isAsciiDigit c || isPySpace c),
        ∀ c ∈ w, isCodeChar c = true := by
      intro w hw c hc
      rcases splitWs_chars _ w hw c hc with ⟨hmem, hnspace⟩
      have h2 := List.mem_filter.1 hmem
      rcases List.mem_map.1 h2.1 with ⟨x, _, rfl⟩
      have hp := h2.2
      have hld : (isAsciiLetter x.toUpper || isAsciiDigit x.toUpper) = true := by
        rcases Bool.or_eq_true_iff.1 hp with h3 | h3
        · exact h3
        · rw [h3] at hnspace
          cases hnspace
      exact toUpper_code_char x hld
    constructor
    · exact basicCodeCore_length _
    · intro c hc
      exact basicCodeCore_chars _ hwords c hc

/-- Claim C7 as stated is refuted: the fallback code generator can emit ASCII
    digits, which are neither uppercase letters nor the padding character; on
    the input "1234" the output is "1234" itself. -/
theorem c7_counterexample :
    generateBasicCode "1234" = "1234" ∧
    (("1234" : String).data.all fun c => ('A' ≤ c && c ≤ 'Z') || c == 'X') = false := by
  decide

/-- Claim C7 (amended): for every input string, both deterministic fallback
    code generators return a string of exactly 4 characters, each of which is
    an uppercase ASCII letter or an ASCII digit (the padding character 'X'
    being an uppercase letter). -/
theorem c7_fallback_code_format (s : String) :
    ((generateBasicCode s).length = 4 ∧ ∀ c ∈ (generateBasicCode s).data, isCodeChar c = true) ∧
    ((generateFallbackCode s).length = 4 ∧
      ∀ c ∈ (generateFallbackCode s).data, isCodeChar c = true) := by
  refine ⟨generateBasicCode_spec s, ?_⟩
  rw [generateFallbackCode_eq_generateBasicCode]
  exact generateBasicCode_spec s

/-- Witness for c7_fallback_code_format at the spec's own example input. -/
theorem c7_fallback_code_format_witness :
    (generateBasicCode "Boise Cascade Building Materials").length = 4 ∧
    isCodeChar 'B' = true :=
  ⟨(c7_fallback_code_format "Boise Cascade Building Materials").1.1,
   (c7_fallback_code_format "Boise Cascade Building Materials").1.2 'B' (by decide)⟩

/-- Claim C9: parseDateTime "01/28/25 11:00" rendered through formatForTms is
    exactly "2025-01-28T11:00:00.000Z". -/
theorem c9_date_round_trip :
    format_datetime_for_tms (parse_datetime "01/28/25 11:00") =
      some "2025-01-28T11:00:00.000Z" := by
  decide

theorem isLower_iff_toNat (c : Char) :
    c.isLower = true ↔ (97 ≤ c.toNat ∧ c.toNat ≤ 122) := by
  simp only [Char.isLower, ge_iff_le, Bool.and_eq_true, decide_eq_true_eq]
  have h97 : ((97 : UInt32) ≤ c.val) ↔ (97 ≤ c.toNat) := by
    rw [show (97 : Nat) = (97 : UInt32).toNat from rfl]
    exact Iff.rfl
  have h122 : (c.val ≤ (122 : UInt32)) ↔ (c.toNat ≤ 122) := by
    rw [show (122 : Nat) = (122 : UInt32).toNat from rfl]
    exact Iff.rfl
  rw [h97, h122]

theorem map_toUpper_eq_self {l : List Char} (h : l.all (fun c => !c.isLower) = true) :
    l.map Char.toUpper = l := by
  induction l with
  | nil => rfl
  | cons a as ih =>
    simp only [List.all_cons, Bool.and_eq_true] at h
    have hne : ¬(97 ≤ a.toNat ∧ a.toNat ≤ 122) := by
      intro hcon
      have hl := (isLower_iff_toNat a).2 hcon
      rw [hl] at h
      simpa using h.1
    simp only [List.map_cons]
    rw [toUpper_eq_self a hne, ih h.2]

/-- Claim C6 as stated is refuted: the oracle response is uppercased before the
    4-letter scan, so the response "abcd" (which contains no run of 4
    consecutive uppercase letters as written) still yields the code "ABCD"
    instead of the fallback code for the entity name. -/
theorem c6_counterexample :
    firstUpperRun4 ("abcd" : String).data = none ∧
    llmGeneratedCode "abcd" "Some Name" = "ABCD" ∧
    generateFallbackCode "Some Name" = "SNOM" ∧
    ("ABCD" : String) ≠ "SNOM" := by
  decide

/-- Claim C6 (amended): the oracle response is uppercased before scanning for
    the first 4-consecutive-uppercase-letter run; consequently, for every
    response containing no lowercase ASCII letter the code is the first such
    run of the text as written, and the fallback fires exactly when there is
    none. -/
theorem c6_llm_code (resp name : String)
    (h : resp.data.all (fun c => !c.isLower) = true) :
    llmGeneratedCode resp name =
      match firstUpperRun4 resp.data with
      | some run => String.mk run
      | none => generateFallbackCode name := by
  unfold llmGeneratedCode
  rw [map_toUpper_eq_self h]

/-- Witness for c6_llm_code on a concrete all-uppercase oracle response. -/
theorem c6_llm_code_witness :
    ("REPLY: ABCD" : String).data.all (fun c => !c.isLower) = true ∧
    llmGeneratedCode "REPLY: ABCD" "N" =
      match firstUpperRun4 ("REPLY: ABCD" : String).data with
      | some run => String.mk run
      | none => generateFallbackCode "N" :=
  ⟨by decide, c6_llm_code "REPLY: ABCD" "N" (by decide)⟩

/-- The frame of a stop: every field except the two the repair step may touch
    (stopType and eventCode are blanked). -/
def Stop.frame (s : Stop) : Stop := { s with stopType := "", eventCode := "" }

theorem setFirstPickup_map_frame (l : List Stop) :
    (setFirstPickup l).map Stop.frame = l.map Stop.frame := by
  cases l with
  | nil => rfl
  | cons s rest => rfl

theorem setLastDelivery_map_frame (l : List Stop) :
    (setLastDelivery l).map Stop.frame = l.map Stop.frame := by
  induction l with
  | nil => rfl
  | cons s rest ih =>
    cases rest with
    | nil => rfl
    | cons t ts =>
      show Stop.frame s :: (setLastDelivery (t :: ts)).map Stop.frame
          = Stop.frame s :: (t :: ts).map Stop.frame
      rw [ih]

theorem setFirstPickup_isEmpty (l : List Stop) :
    (setFirstPickup l).isEmpty = l.isEmpty := by
  cases l with
  | nil => rfl
  | cons s rest => rfl

theorem repairStops_map_frame (l : List Stop) :
    (repairStops l).map Stop.frame = l.map Stop.frame := by
  rw [repairStops]
  by_cases h1 : (!(l.any fun s => s.stopType == Constants.PICKUP_STOP_TYPE) && !l.isEmpty) = true
  · rw [if_pos h1]
    by_cases h2 : (!(l.any fun s =>
        !(s.stopType == Constants.PICKUP_STOP_TYPE)
          && s.stopType == Constants.DELIVERY_STOP_TYPE)
        && !(setFirstPickup l).isEmpty) = true
    · rw [if_pos h2, setLastDelivery_map_frame, setFirstPickup_map_frame]
    · rw [if_neg h2, setFirstPickup_map_frame]
  · rw [if_neg h1]
    by_cases h2 : (!(l.any fun s =>
        !(s.stopType == Constants.PICKUP_STOP_TYPE)
          && s.stopType == Constants.DELIVERY_STOP_TYPE)
        && !l.isEmpty) = true
    · rw [if_pos h2, setLastDelivery_map_frame]
    · rw [if_neg h2]

theorem repairStops_length (l : List Stop) : (repairStops l).length = l.length := by
  have h := repairStops_map_frame l
  have h1 : ((repairStops l).map Stop.frame).length = (l.map Stop.frame).length := by rw [h]
  simpa using h1

theorem setFirstPickup_get?_pos (l : List Stop) (i : Nat) (h : 0 < i) :
    (setFirstPickup l).get? i = l.get? i := by
  cases l with
  | nil => rfl
  | cons s rest =>
    cases i with
    | zero => omega
    | succ j => rfl

theorem setLastDelivery_get?_lt (l : List Stop) (i : Nat) (h : i + 1 < l.length) :
    (setLastDelivery l).get? i = l.get? i := by
  induction l generalizing i with
  | nil => rfl
  | cons s rest ih =>
    cases rest with
    | nil => simp at h
    | cons t ts =>
      cases i with
      | zero => rfl
      | succ j =>
        show (setLastDelivery (t :: ts)).get? j = (t :: ts).get? j
        exact ih j (by simp at h ⊢; omega)

theorem setLastDelivery_length (l : List Stop) : (setLastDelivery l).length = l.length := by
  have h := setLastDelivery_map_frame l
  have h1 : ((setLastDelivery l).map Stop.frame).length = (l.map Stop.frame).length := by rw [h]
  simpa using h1

theorem setFirstPickup_length (l : List Stop) : (setFirstPickup l).length = l.length := by
  have h := setFirstPickup_map_frame l
  have h1 : ((setFirstPickup l).map Stop.frame).length = (l.map Stop.frame).length := by rw [h]
  simpa using h1

theorem repairStops_get?_middle (l : List Stop) (i : Nat) (h0 : 0 < i)
    (h1 : i + 1 < l.length) : (repairStops l).get? i = l.get? i := by
  rw [repairStops]
  by_cases hc1 : (!(l.any fun s => s.stopType == Constants.PICKUP_STOP_TYPE) && !l.isEmpty) = true
  · rw [if_pos hc1]
    by_cases hc2 : (!(l.any fun s =>
        !(s.stopType == Constants.PICKUP_STOP_TYPE)
          && s.stopType == Constants.DELIVERY_STOP_TYPE)
        && !(setFirstPickup l).isEmpty) = true
    · rw [if_pos hc2, setLastDelivery_get?_lt _ _ (by rw [setFirstPickup_length]; exact h1),
        setFirstPickup_get?_pos _ _ h0]
    · rw [if_neg hc2, setFirstPickup_get?_pos _ _ h0]
  · rw [if_neg hc1]
    by_cases hc2 : (!(l.any fun s =>
        !(s.stopType == Constants.PICKUP_STOP_TYPE)
          && s.stopType == Constants.DELIVERY_STOP_TYPE)
        && !l.isEmpty) = true
    · rw [if_pos hc2, setLastDelivery_get?_lt _ _ h1]
    · rw [if_neg hc2]

/-- Claim C10: the post-loop repair modifies at most stopType and eventCode of
    the first and last stops: all other fields of every stop (the frame) and
    the length and order of the list are unchanged, every stop other than the
    first and last is entirely unchanged, and the empty list is unchanged. -/
theorem c10_repair_frame (l : List Stop) :
    (repairStops l).map Stop.frame = l.map Stop.frame ∧
    (repairStops l).length = l.length ∧
    (∀ i, 0 < i → i + 1 < l.length → (repairStops l).get? i = l.get? i) ∧
    repairStops ([] : List Stop) = [] :=
  ⟨repairStops_map_frame l, repairStops_length l,
   fun i h0 h1 => repairStops_get?_middle l i h0 h1, rfl⟩

/-- A concrete delivery-type stop used by witnesses. -/
def sampleStop (seq : Nat) : Stop :=
  { eventCode := Constants.DELIVERY_EVENT_CODE
    stopType := Constants.DELIVERY_STOP_TYPE
    companyID := .str "AAAA"
    sequence := seq
    billable := true
    earliestDate := none
    latestDate := none
    arrivalDate := none
    departureDate := none
    phoneNumber := none
    referenceNumbers := [] }

/-- Witness for c10_repair_frame: the middle stop of a concrete 3-stop list is
    untouched by the repair. -/
theorem c10_repair_frame_witness :
    0 < 1 ∧ 1 + 1 < [sampleStop 1, sampleStop 2, sampleStop 3].length ∧
    (repairStops [sampleStop 1, sampleStop 2, sampleStop 3]).get? 1 =
      [sampleStop 1, sampleStop 2, sampleStop 3].get? 1 :=
  ⟨by decide, by decide,
   (c10_repair_frame [sampleStop 1, sampleStop 2, sampleStop 3]).2.2.1 1
     (by decide) (by decide)⟩

theorem range'_split (m : Nat) : ∀ (s n : Nat),
    List.range' s (m + n) = List.range' s m ++ List.range' (s + m) n := by
  induction m with
  | zero => intro s n; simp
  | succ k ih =>
    intro s n
    have h1 : k + 1 + n = (k + n) + 1 := by omega
    rw [h1, List.range'_succ, ih (s + 1) n, List.range'_succ]
    simp only [List.cons_append]
    have h2 : s + 1 + k = s + (k + 1) := by omega
    rw [h2]

theorem buildShipperStop_ok {em : Json} {b : Option String} {i seq : Nat}
    {sh : ShipperItem} {s : Stop} (h : buildShipperStop em b i seq sh = .ok s) :
    s.stopType = Constants.PICKUP_STOP_TYPE ∧ s.eventCode = Constants.PICKUP_EVENT_CODE ∧
    s.sequence = seq := by
  unfold buildShipperStop at h
  cases hc : shipperCompanyCode em i with
  | error e =>
    rw [hc] at h
    simp only [bind, Except.bind] at h
    exact Except.noConfusion h
  | ok cc =>
    rw [hc] at h
    simp only [bind, Except.bind, pure, Except.pure, Except.ok.injEq] at h
    subst h
    exact ⟨rfl, rfl, rfl⟩

theorem buildReceiverStop_ok {em : Json} {b : Option String} {i seq : Nat}
    {r : ReceiverItem} {s : Stop} (h : buildReceiverStop em b i seq r = .ok s) :
    s.stopType = Constants.DELIVERY_STOP_TYPE ∧ s.eventCode = Constants.DELIVERY_EVENT_CODE ∧
    s.sequence = seq := by
  unfold buildReceiverStop at h
  cases hc : receiverCompanyCode em i with
  | error e =>
    rw [hc] at h
    simp only [bind, Except.bind] at h
    exact Except.noConfusion h
  | ok cc =>
    rw [hc] at h
    simp only [bind, Except.bind, pure, Except.pure, Except.ok.injEq] at h
    subst h
    exact ⟨rfl, rfl, rfl⟩

theorem buildShipperStops_ok {em : Json} {b : Option String} :
    ∀ (lst : List ShipperItem) (i seq : Nat) (out : List Stop),
      buildShipperStops em b lst i seq = .ok out →
      out.length = lst.length ∧
      out.map Stop.sequence = List.range' seq lst.length ∧
      ∀ s ∈ out, s.stopType = Constants.PICKUP_STOP_TYPE := by
  intro lst
  induction lst with
  | nil =>
    intro i seq out h
    simp only [buildShipperStops, pure, Except.pure, Except.ok.injEq] at h
    subst h
    simp
  | cons sh rest ih =>
    intro i seq out h
    rw [buildShipperStops] at h
    cases hs : buildShipperStop em b i seq sh with
    | error e =>
      rw [hs] at h
      simp only [bind, Except.bind] at h
      exact Except.noConfusion h
    | ok s =>
      rw [hs] at h
      cases ht : buildShipperStops em b rest (i + 1) (seq + 1) with
      | error e =>
        rw [ht] at h
        simp only [bind, Except.bind] at h
        exact Except.noConfusion h
      | ok tail =>
        rw [ht] at h
        simp only [bind, Except.bind, pure, Except.pure, Except.ok.injEq] at h
        subst h
        obtain ⟨hlen, hseq, htypes⟩ := ih (i + 1) (seq + 1) tail ht
        obtain ⟨hty, _, hsq⟩ := buildShipperStop_ok hs
        refine ⟨by simp [hlen], ?_, ?_⟩
        · rw [List.map_cons, hseq, hsq, List.length_cons, List.range'_succ]
        · intro t htm
          rcases List.mem_cons.1 htm with rfl | htm2
          · exact hty
          · exact htypes t htm2

theorem buildReceiverStops_ok {em : Json} {b : Option String} :
    ∀ (lst : List ReceiverItem) (i seq : Nat) (out : List Stop),
      buildReceiverStops em b lst i seq = .ok out →
      out.length = lst.length ∧
      out.map Stop.sequence = List.range' seq lst.length ∧
      ∀ s ∈ out, s.stopType = Constants.DELIVERY_STOP_TYPE := by
  intro lst
  induction lst with
  | nil =>
    intro i seq out h
    simp only [buildReceiverStops, pure, Except.pure, Except.ok.injEq] at h
    subst h
    simp
  | cons r rest ih =>
    intro i seq out h
    rw [buildReceiverStops] at h
    cases hs : buildReceiverStop em b i seq r with
    | error e =>
      rw [hs] at h
      simp only [bind, Except.bind] at h
      exact Except.noConfusion h
    | ok s =>
      rw [hs] at h
      cases ht : buildReceiverStops em b rest (i + 1) (seq + 1) with
      | error e =>
        rw [ht] at h
        simp only [bind, Except.bind] at h
        exact Except.noConfusion h
      | ok tail =>
        rw [ht] at h
        simp only [bind, Except.bind, pure, Except.pure, Except.ok.injEq] at h
        subst h
        obtain ⟨hlen, hseq, htypes⟩ := ih (i + 1) (seq + 1) tail ht
        obtain ⟨hty, _, hsq⟩ := buildReceiverStop_ok hs
        refine ⟨by simp [hlen], ?_, ?_⟩
        · rw [List.map_cons, hseq, hsq, List.length_cons, List.range'_succ]
        · intro t htm
          rcases List.mem_cons.1 htm with rfl | htm2
          · exact hty
          · exact htypes t htm2

theorem buildStopsRaw_ok {em : Json} {doc : ExtractionDoc} {out : List Stop}
    (h : buildStopsRaw em doc = .ok out) :
    ∃ ss rs, out = ss ++ rs ∧
      ss.length = doc.shipper_section.length ∧
      rs.length = doc.receiver_section.length ∧
      (∀ s ∈ ss, s.stopType = Constants.PICKUP_STOP_TYPE) ∧
      (∀ s ∈ rs, s.stopType = Constants.DELIVERY_STOP_TYPE) ∧
      out.map Stop.sequence =
        List.range' 1 (doc.shipper_section.length + doc.receiver_section.length) := by
  unfold buildStopsRaw at h
  cases h1 : buildShipperStops em doc.booking_confirmation_number doc.shipper_section 0 1 with
  | error e =>
    rw [h1] at h
    simp only [bind, Except.bind] at h
    exact Except.noConfusion h
  | ok ss =>
    rw [h1] at h
    cases h2 : buildReceiverStops em doc.booking_confirmation_number doc.receiver_section 0
        (doc.shipper_section.length + 1) with
    | error e =>
      rw [h2] at h
      simp only [bind, Except.bind] at h
      exact Except.noConfusion h
    | ok rs =>
      rw [h2] at h
      simp only [bind, Except.bind, pure, Except.pure, Except.ok.injEq] at h
      subst h
      obtain ⟨hsl, hsseq, hstypes⟩ := buildShipperStops_ok _ _ _ _ h1
      obtain ⟨hrl, hrseq, hrtypes⟩ := buildReceiverStops_ok _ _ _ _ h2
      refine ⟨ss, rs, rfl, hsl, hrl, hstypes, hrtypes, ?_⟩
      rw [List.map_append, hsseq, hrseq,
        range'_split doc.shipper_section.length 1 doc.receiver_section.length]
      have : 1 + doc.shipper_section.length = doc.shipper_section.length + 1 := by omega
      rw [this]

theorem repairStops_map_sequence (l : List Stop) :
    (repairStops l).map Stop.sequence = l.map Stop.sequence := by
  have hmm : ∀ m : List Stop, m.map Stop.sequence = (m.map Stop.frame).map Stop.sequence := by
    intro m
    rw [List.map_map]
    exact (List.map_congr_left fun s _ => rfl).symm
  rw [hmm (repairStops l), hmm l, repairStops_map_frame]

theorem processStops_ok {em : Json} {doc : ExtractionDoc} {stops : List Stop}
    (h : processStops em doc = .ok stops) :
    ∃ built, buildStopsRaw em doc = .ok built ∧ stops = repairStops built := by
  unfold processStops at h
  cases hb : buildStopsRaw em doc with
  | error e =>
    rw [hb] at h
    simp [Except.map] at h
  | ok built =>
    rw [hb] at h
    simp only [Except.map, Except.ok.injEq] at h
    exact ⟨built, rfl, h.symm⟩

/-- Claim C8: for a document with N total shipper plus receiver line-items,
    whenever the stop-building stage succeeds the stop list has exactly N
    stops with sequence fields 1..N in list order, and the pre-repair list
    consists of the shipper (PUP) stops followed by the receiver (DRP) stops. -/
theorem c8_sequence_monotonic (em : Json) (doc : ExtractionDoc) (stops : List Stop)
    (h : processStops em doc = .ok stops) :
    stops.length = doc.shipper_section.length + doc.receiver_section.length ∧
    stops.map Stop.sequence =
      List.range' 1 (doc.shipper_section.length + doc.receiver_section.length) ∧
    ∃ built, buildStopsRaw em doc = .ok built ∧ stops = repairStops built ∧
      built.map Stop.stopType =
        List.replicate doc.shipper_section.length Constants.PICKUP_STOP_TYPE ++
          List.replicate doc.receiver_section.length Constants.DELIVERY_STOP_TYPE := by
  obtain ⟨built, hb, hrep⟩ := processStops_ok h
  obtain ⟨ss, rs, hout, hsl, hrl, hstypes, hrtypes, hseq⟩ := buildStopsRaw_ok hb
  have hblen : built.length =
      doc.shipper_section.length + doc.receiver_section.length := by
    rw [hout, List.length_append, hsl, hrl]
  refine ⟨?_, ?_, built, hb, hrep, ?_⟩
  · rw [hrep, repairStops_length, hblen]
  · rw [hrep, repairStops_map_sequence, hseq]
  · rw [hout, List.map_append]
    have h1 : ss.map Stop.stopType =
        List.replicate doc.shipper_section.length Constants.PICKUP_STOP_TYPE := by
      refine List.eq_replicate_iff.2 ⟨by simp [hsl], ?_⟩
      intro b hbm
      rcases List.mem_map.1 hbm with ⟨s, hsm, rfl⟩
      exact hstypes s hsm
    have h2 : rs.map Stop.stopType =
        List.replicate doc.receiver_section.length Constants.DELIVERY_STOP_TYPE := by
      refine List.eq_replicate_iff.2 ⟨by simp [hrl], ?_⟩
      intro b hbm
      rcases List.mem_map.1 hbm with ⟨s, hsm, rfl⟩
      exact hrtypes s hsm
    rw [h1, h2]

/-- A two-line-item document (one shipper, one receiver) used by witnesses. -/
def docTwoStops : ExtractionDoc :=
  { shipper_section := [{}], receiver_section := [{}] }

/-- The stop list the pipeline builds for docTwoStops under the fallback
    entity mapping. -/
def stopsTwo : List Stop :=
  match processStops (extractEntities none docTwoStops) docTwoStops with
  | .ok l => l
  | .error _ => []

/-- Witness for c8_sequence_monotonic at a concrete two-stop document. -/
theorem c8_sequence_monotonic_witness :
    stopsTwo.length = 2 ∧ stopsTwo.map Stop.sequence = List.range' 1 2 := by
  have h := c8_sequence_monotonic (extractEntities none docTwoStops) docTwoStops
    stopsTwo rfl
  exact ⟨h.1, h.2.1⟩

theorem setLastDelivery_exists_drp :
    ∀ l : List Stop, l ≠ [] →
      ∃ s ∈ setLastDelivery l, s.stopType = Constants.DELIVERY_STOP_TYPE
  | [], h => absurd rfl h
  | [s], _ =>
    ⟨{ s with stopType := Constants.DELIVERY_STOP_TYPE,
              eventCode := Constants.DELIVERY_EVENT_CODE },
     List.mem_singleton_self _, rfl⟩
  | s :: t :: ts, _ => by
    obtain ⟨x, hx, hdrp⟩ := setLastDelivery_exists_drp (t :: ts) (List.cons_ne_nil t ts)
    exact ⟨x, List.mem_cons_of_mem s hx, hdrp⟩

/-- A document with exactly one shipper line-item and no receivers. -/
def docOneShipper : ExtractionDoc := { shipper_section := [{}] }

/-- Claim C1 as stated is refuted: for a document with a single shipper
    line-item (non-empty combined input), the repaired stop list is a single
    DRP stop, with no PUP stop at all. -/
theorem c1_counterexample :
    docOneShipper.shipper_section.length + docOneShipper.receiver_section.length = 1 ∧
    (processStops (extractEntities none docOneShipper) docOneShipper).map
      (fun l => l.map Stop.stopType) = .ok [Constants.DELIVERY_STOP_TYPE] :=
  ⟨rfl, rfl⟩

theorem repairStops_of_no_pickup (l : List Stop)
    (hpf : (l.any fun s => s.stopType == Constants.PICKUP_STOP_TYPE) = false)
    (hdf : (l.any fun s => !(s.stopType == Constants.PICKUP_STOP_TYPE)
        && s.stopType == Constants.DELIVERY_STOP_TYPE) = true)
    (hne : l.isEmpty = false) :
    repairStops l = setFirstPickup l := by
  rw [repairStops]
  simp [hpf, hdf, hne]

theorem repairStops_of_no_delivery (l : List Stop)
    (hpf : (l.any fun s => s.stopType == Constants.PICKUP_STOP_TYPE) = true)
    (hdf : (l.any fun s => !(s.stopType == Constants.PICKUP_STOP_TYPE)
        && s.stopType == Constants.DELIVERY_STOP_TYPE) = false)
    (hne : l.isEmpty = false) :
    repairStops l = setLastDelivery l := by
  rw [repairStops]
  simp [hpf, hdf, hne]

theorem repairStops_of_both (l : List Stop)
    (hpf : (l.any fun s => s.stopType == Constants.PICKUP_STOP_TYPE) = true)
    (hdf : (l.any fun s => !(s.stopType == Constants.PICKUP_STOP_TYPE)
        && s.stopType == Constants.DELIVERY_STOP_TYPE) = true) :
    repairStops l = l := by
  rw [repairStops]
  simp [hpf, hdf]

theorem mem_setFirstPickup_head (l : List Stop) (hne : l ≠ []) :
    ∃ s ∈ setFirstPickup l, s.stopType = Constants.PICKUP_STOP_TYPE := by
  cases l with
  | nil => exact absurd rfl hne
  | cons a as => exact ⟨_, List.mem_cons_self _ _, rfl⟩

/-- Claim C1 (amended): for every entity mapping and document with at least 2
    combined shipper plus receiver line-items, whenever the stop-building stage
    succeeds the repaired stop list contains at least one PUP stop and at least
    one DRP stop.  (With exactly one line-item the single stop ends up typed
    DRP for a shipper, or PUP for a receiver, so the claim fails there.) -/
theorem c1_stop_invariant (em : Json) (doc : ExtractionDoc) (stops : List Stop)
    (h : processStops em doc = .ok stops)
    (hn : 2 ≤ doc.shipper_section.length + doc.receiver_section.length) :
    (∃ s ∈ stops, s.stopType = Constants.PICKUP_STOP_TYPE) ∧
    (∃ s ∈ stops, s.stopType = Constants.DELIVERY_STOP_TYPE) := by
  obtain ⟨built, hb, hrep⟩ := processStops_ok h
  obtain ⟨ss, rs, hout, hsl, hrl, hstypes, hrtypes, _⟩ := buildStopsRaw_ok hb
  subst hout
  subst hrep
  cases hss : ss with
  | nil =>
    subst hss
    have hr2 : 2 ≤ rs.length := by
      simp only [List.length_nil] at hsl
      omega
    cases rs with
    | nil => simp at hr2
    | cons r0 rtl =>
      cases rtl with
      | nil => simp at hr2
      | cons r1 rtl2 =>
        rw [List.nil_append] at *
        have hpf : ((r0 :: r1 :: rtl2).any fun s =>
            s.stopType == Constants.PICKUP_STOP_TYPE) = false := by
          rw [List.any_eq_false]
          intro s hsm
          rw [hrtypes s hsm]
          decide
        have hdf : ((r0 :: r1 :: rtl2).any fun s =>
            !(s.stopType == Constants.PICKUP_STOP_TYPE)
              && s.stopType == Constants.DELIVERY_STOP_TYPE) = true := by
          rw [List.any_eq_true]
          refine ⟨r0, List.mem_cons_self _ _, ?_⟩
          rw [hrtypes r0 (List.mem_cons_self _ _)]
          decide
        rw [repairStops_of_no_pickup _ hpf hdf rfl]
        constructor
        · exact mem_setFirstPickup_head _ (List.cons_ne_nil _ _)
        · exact ⟨r1, List.mem_cons_of_mem _ (List.mem_cons_self _ _),
            hrtypes r1 (List.mem_cons_of_mem r0 (List.mem_cons_self _ _))⟩
  | cons s0 stl =>
    subst hss
    cases hrs : rs with
    | nil =>
      subst hrs
      have hs2 : 2 ≤ (s0 :: stl).length := by
        simp only [List.length_nil] at hrl
        omega
      cases stl with
      | nil => simp at hs2
      | cons s1 stl2 =>
        rw [List.append_nil] at *
        have hpf : ((s0 :: s1 :: stl2).any fun s =>
            s.stopType == Constants.PICKUP_STOP_TYPE) = true := by
          rw [List.any_eq_true]
          refine ⟨s0, List.mem_cons_self _ _, ?_⟩
          rw [hstypes s0 (List.mem_cons_self _ _)]
          decide
        have hdf : ((s0 :: s1 :: stl2).any fun s =>
            !(s.stopType == Constants.PICKUP_STOP_TYPE)
              && s.stopType == Constants.DELIVERY_STOP_TYPE) = false := by
          rw [List.any_eq_false]
          intro s hsm
          rw [hstypes s hsm]
          decide
        rw [repairStops_of_no_delivery _ hpf hdf rfl]
        constructor
        · exact ⟨s0, List.mem_cons_self _ _, hstypes s0 (List.mem_cons_self _ _)⟩
        · exact setLastDelivery_exists_drp (s0 :: s1 :: stl2) (List.cons_ne_nil _ _)
    | cons r0 rtl =>
      subst hrs
      have hpf : (((s0 :: stl) ++ r0 :: rtl).any fun s =>
          s.stopType == Constants.PICKUP_STOP_TYPE) = true := by
        rw [List.any_eq_true]
        refine ⟨s0, List.mem_append_left _ (List.mem_cons_self _ _), ?_⟩
        rw [hstypes s0 (List.mem_cons_self _ _)]
        decide
      have hdf : (((s0 :: stl) ++ r0 :: rtl).any fun s =>
          !(s.stopType == Constants.PICKUP_STOP_TYPE)
            && s.stopType == Constants.DELIVERY_STOP_TYPE) = true := by
        rw [List.any_eq_true]
        refine ⟨r0, List.mem_append_right _ (List.mem_cons_self _ _), ?_⟩
        rw [hrtypes r0 (List.mem_cons_self _ _)]
        decide
      rw [repairStops_of_both _ hpf hdf]
      constructor
      · exact ⟨s0, List.mem_append_left _ (List.mem_cons_self _ _),
          hstypes s0 (List.mem_cons_self _ _)⟩
      · exact ⟨r0, List.mem_append_right _ (List.mem_cons_self _ _),
          hrtypes r0 (List.mem_cons_self _ _)⟩

/-- Witness for c1_stop_invariant at a concrete two-stop document. -/
theorem c1_stop_invariant_witness :
    (∃ s ∈ stopsTwo, s.stopType = Constants.PICKUP_STOP_TYPE) ∧
    (∃ s ∈ stopsTwo, s.stopType = Constants.DELIVERY_STOP_TYPE) :=
  c1_stop_invariant (extractEntities none docTwoStops) docTwoStops stopsTwo rfl
    (by decide)

/-- Claim-side lookup into a JSON mapping (total, no exception semantics). -/
def jLookup (j : Json) (k : String) : Option Json :=
  match j with
  | .obj kvs => (kvs.find? fun p => p.1 == k).map Prod.snd
  | _ => none

/-- The codes stored in an entity mapping: the customer code and the elements
    of the shipper and receiver code lists. -/
def mappingCodes (j : Json) : List Json :=
  (jLookup j "customer_code").toList ++
    ((match jLookup j "shipper_codes" with
      | some (.arr l) => l
      | _ => []) ++
     (match jLookup j "receiver_codes" with
      | some (.arr l) => l
      | _ => []))

/-- An oracle response that parses as JSON but carries a 3-character lowercase
    customer code. -/
def badEntityJson : Json :=
  .obj [("customer_code", .str "abc"), ("shipper_codes", .arr []),
        ("receiver_codes", .arr [])]

/-- Claim C2 as stated is refuted: a parsed oracle response is stored verbatim
    by the entity-resolution stage, so the mapping can hold a code that is not
    4 uppercase characters. -/
theorem c2_counterexample :
    mappingCodes (extractEntities (some badEntityJson) docOneShipper) = [Json.str "abc"] ∧
    ¬(("abc" : String).length = 4 ∧
       ∀ c ∈ ("abc" : String).data, ('A' ≤ c && c ≤ 'Z') = true) := by
  exact ⟨rfl, by decide⟩

/-- Claim C2 (amended): when the oracle call or its JSON parse fails, every
    code in the fallback entity mapping is a 4-character string of uppercase
    ASCII letters and digits; a response that parses as JSON is stored without
    validation. -/
theorem c2_entity_codes (doc : ExtractionDoc) :
    ∀ c ∈ mappingCodes (extractEntities none doc),
      ∃ s, c = Json.str s ∧ s.length = 4 ∧ ∀ ch ∈ s.data, isCodeChar ch = true := by
  intro c hc
  have hm : mappingCodes (extractEntities none doc) =
      Json.str (generateBasicCode (doc.customer_name.getD "Unknown")) ::
        ((doc.shipper_section.map fun sh =>
            Json.str (generateBasicCode (sh.ship_from_company.getD "UNKN"))) ++
         (doc.receiver_section.map fun r =>
            Json.str (generateBasicCode (r.receiver_company.getD "UNKN")))) := rfl
  rw [hm] at hc
  rcases List.mem_cons.1 hc with rfl | hc2
  · exact ⟨_, rfl, (generateBasicCode_spec _).1, (generateBasicCode_spec _).2⟩
  · rcases List.mem_append.1 hc2 with hc3 | hc3 <;>
      (rcases List.mem_map.1 hc3 with ⟨x, _, rfl⟩;
       exact ⟨_, rfl, (generateBasicCode_spec _).1, (generateBasicCode_spec _).2⟩)

/-- Witness for c2_entity_codes at the one-shipper document: the fallback
    customer code "UNKN" is a valid 4-character code. -/
theorem c2_entity_codes_witness :
    ∃ s, Json.str "UNKN" = Json.str s ∧ s.length = 4 ∧
      ∀ ch ∈ s.data, isCodeChar ch = true :=
  c2_entity_codes docOneShipper (Json.str "UNKN")
    (by rw [show mappingCodes (extractEntities none docOneShipper) =
          [Json.str "UNKN", Json.str "UNKN"] from rfl]
        exact List.mem_cons_self _ _)

/-- A document whose single shipper pickup number equals the booking
    confirmation number. -/
def docDupShipper : ExtractionDoc :=
  { shipper_section := [{ pickup_number := some "10271" }],
    booking_confirmation_number := some "10271" }

/-- Claim C4 as stated is refuted: the shipper loop appends the booking
    confirmation number as a LOAD reference without any deduplication check,
    so the same value can appear twice in one shipper stop's reference list. -/
theorem c4_counterexample :
    shipperRefs "10271" (some "10271") =
      [{ referenceType := "REF", value := "10271", referenceTable := "stops" },
       { referenceType := "LOAD", value := "10271", referenceTable := "stops" }] ∧
    ((shipperRefs "10271" (some "10271")).map RefEntry.value).count "10271" = 2 ∧
    (processStops (extractEntities none docDupShipper) docDupShipper).map
      (fun l => l.map fun s => s.referenceNumbers.map RefEntry.value) =
      .ok [["10271", "10271"]] := by
  exact ⟨rfl, by decide, rfl⟩

/-- Claim C4 (amended): the deduplication check guards only the receiver
    stops: there, the booking confirmation number is appended as a LOAD
    reference exactly when it is not already among the extracted reference
    values of that stop (shipper stops append it unconditionally). -/
theorem c4_reference_dedup (delivery_number b : String) (hb : b ≠ "") :
    (b ∈ (extractedStopRefs delivery_number).map RefEntry.value →
      receiverRefs delivery_number (some b) = extractedStopRefs delivery_number) ∧
    (b ∉ (extractedStopRefs delivery_number).map RefEntry.value →
      receiverRefs delivery_number (some b) =
        extractedStopRefs delivery_number ++
          [{ referenceType := Constants.REF_LOAD, value := b,
             referenceTable := "stops" }]) := by
  constructor
  · intro hmem
    have hany : ((extractedStopRefs delivery_number).any fun r => r.value == b) = true := by
      rw [List.any_eq_true]
      rcases List.mem_map.1 hmem with ⟨r, hr, rfl⟩
      exact ⟨r, hr, beq_self_eq_true _⟩
    simp [receiverRefs, hany]
  · intro hnmem
    have hany : ((extractedStopRefs delivery_number).any fun r => r.value == b) = false := by
      rw [List.any_eq_false]
      intro r hr hcon
      exact hnmem (List.mem_map.2 ⟨r, hr, eq_of_beq hcon⟩)
    simp [receiverRefs, hany, hb]

/-- Witness for c4_reference_dedup: a delivery number that already encodes the
    booking confirmation number does not get a second LOAD entry. -/
theorem c4_reference_dedup_witness :
    receiverRefs "10271" (some "10271") = extractedStopRefs "10271" :=
  (c4_reference_dedup "10271" "10271" (by decide)).1 (by decide)

theorem shipperCompanyCode_fallback (doc : ExtractionDoc) (i : Nat) :
    ∃ c, shipperCompanyCode (fallbackEntityMappings doc) i = .ok c := by
  have hlk : pyLookup (fallbackEntityMappings doc) "shipper_codes" =
      .ok (.arr (doc.shipper_section.map fun sh =>
        .str (generateBasicCode (sh.ship_from_company.getD "UNKN")))) := rfl
  unfold shipperCompanyCode
  rw [hlk]
  simp only [bind, Except.bind, pyLen]
  by_cases hi : i < (doc.shipper_section.map fun sh =>
      Json.str (generateBasicCode (sh.ship_from_company.getD "UNKN"))).length
  · rw [if_pos hi]
    rw [show pyIndexNat (Json.arr (doc.shipper_section.map fun sh =>
        Json.str (generateBasicCode (sh.ship_from_company.getD "UNKN")))) i =
      (match (doc.shipper_section.map fun sh =>
          Json.str (generateBasicCode (sh.ship_from_company.getD "UNKN"))).get? i with
        | some e => Except.ok e
        | none => Except.error PyErr.indexError) from rfl]
    rw [List.get?_eq_get hi]
    exact ⟨_, rfl⟩
  · rw [if_neg hi]
    exact ⟨_, rfl⟩

theorem receiverCompanyCode_fallback (doc : ExtractionDoc) (i : Nat) :
    ∃ c, receiverCompanyCode (fallbackEntityMappings doc) i = .ok c := by
  have hlk : pyLookup (fallbackEntityMappings doc) "receiver_codes" =
      .ok (.arr (doc.receiver_section.map fun r =>
        .str (generateBasicCode (r.receiver_company.getD "UNKN")))) := rfl
  unfold receiverCompanyCode
  rw [hlk]
  simp only [bind, Except.bind, pyLen]
  by_cases hi : i < (doc.receiver_section.map fun r =>
      Json.str (generateBasicCode (r.receiver_company.getD "UNKN"))).length
  · rw [if_pos hi]
    rw [show pyIndexNat (Json.arr (doc.receiver_section.map fun r =>
        Json.str (generateBasicCode (r.receiver_company.getD "UNKN")))) i =
      (match (doc.receiver_section.map fun r =>
          Json.str (generateBasicCode (r.receiver_company.getD "UNKN"))).get? i with
        | some e => Except.ok e
        | none => Except.error PyErr.indexError) from rfl]
    rw [List.get?_eq_get hi]
    exact ⟨_, rfl⟩
  · rw [if_neg hi]
    exact ⟨_, rfl⟩

theorem buildShipperStop_fallback (doc : ExtractionDoc) (b : Option String)
    (i seq : Nat) (sh : ShipperItem) :
    ∃ s, buildShipperStop (fallbackEntityMappings doc) b i seq sh = .ok s := by
  obtain ⟨c, hc⟩ := shipperCompanyCode_fallback doc i
  unfold buildShipperStop
  rw [hc]
  exact ⟨_, rfl⟩

theorem buildReceiverStop_fallback (doc : ExtractionDoc) (b : Option String)
    (i seq : Nat) (r : ReceiverItem) :
    ∃ s, buildReceiverStop (fallbackEntityMappings doc) b i seq r = .ok s := by
  obtain ⟨c, hc⟩ := receiverCompanyCode_fallback doc i
  unfold buildReceiverStop
  rw [hc]
  exact ⟨_, rfl⟩

theorem buildShipperStops_fallback (doc : ExtractionDoc) (b : Option String) :
    ∀ (lst : List ShipperItem) (i seq : Nat),
      ∃ out, buildShipperStops (fallbackEntityMappings doc) b lst i seq = .ok out := by
  intro lst
  induction lst with
  | nil => exact fun i seq => ⟨[], rfl⟩
  | cons sh rest ih =>
    intro i seq
    obtain ⟨s, hs⟩ := buildShipperStop_fallback doc b i seq sh
    obtain ⟨tail, ht⟩ := ih (i + 1) (seq + 1)
    refine ⟨s :: tail, ?_⟩
    rw [buildShipperStops, hs, ht]
    rfl

theorem buildReceiverStops_fallback (doc : ExtractionDoc) (b : Option String) :
    ∀ (lst : List ReceiverItem) (i seq : Nat),
      ∃ out, buildReceiverStops (fallbackEntityMappings doc) b lst i seq = .ok out := by
  intro lst
  induction lst with
  | nil => exact fun i seq => ⟨[], rfl⟩
  | cons r rest ih =>
    intro i seq
    obtain ⟨s, hs⟩ := buildReceiverStop_fallback doc b i seq r
    obtain ⟨tail, ht⟩ := ih (i + 1) (seq + 1)
    refine ⟨s :: tail, ?_⟩
    rw [buildReceiverStops, hs, ht]
    rfl

theorem processStops_fallback (doc : ExtractionDoc) :
    ∃ stops, processStops (fallbackEntityMappings doc) doc = .ok stops := by
  obtain ⟨ss, hss⟩ := buildShipperStops_fallback doc doc.booking_confirmation_number
    doc.shipper_section 0 1
  obtain ⟨rs, hrs⟩ := buildReceiverStops_fallback doc doc.booking_confirmation_number
    doc.receiver_section 0 (doc.shipper_section.length + 1)
  refine ⟨repairStops (ss ++ rs), ?_⟩
  unfold processStops buildStopsRaw
  rw [hss, hrs]
  rfl

/-- dict.get on an association list (the total core of pyDictGet on a dict). -/
def jsonGetD (kvs : List (String × Json)) (k : String) (d : Json) : Json :=
  match kvs.find? (fun p => p.1 == k) with
  | some p => p.2
  | none => d

theorem pyDictGet_obj (kvs : List (String × Json)) (k : String) (d : Json) :
    pyDictGet (.obj kvs) k d = .ok (jsonGetD kvs k d) := by
  show (match kvs.find? (fun p => p.1 == k) with
        | some p => Except.ok p.2
        | none => (Except.ok d : Except PyErr Json)) = .ok (jsonGetD kvs k d)
  unfold jsonGetD
  cases hf : kvs.find? (fun p => p.1 == k) <;> rfl

theorem createTmsRequest_fallback (doc : ExtractionDoc) (stop_data : List Stop)
    (kvs : List (String × Json)) (com : String) :
    ∃ r, createTmsRequest doc (fallbackEntityMappings doc) stop_data (.obj kvs) com = .ok r ∧
      r.revType1 = jsonGetD kvs "revType1" (.str Constants.REV_TYPE1_LOGCOM) ∧
      r.revType2 = jsonGetD kvs "revType2" (.str Constants.REV_TYPE2_HOUSE) ∧
      r.revType3 = jsonGetD kvs "revType3" (.str Constants.REV_TYPE3_IN) ∧
      r.revType4 = jsonGetD kvs "revType4" (.str Constants.REV_TYPE4_OTR) := by
  obtain ⟨cn, ca, ss0, rs0, bk, rn, tr, fr, eqp⟩ := doc
  simp only [createTmsRequest, pyDictGet_obj]
  cases ss0 <;> cases rs0 <;> exact ⟨_, rfl, rfl, rfl, rfl, rfl⟩

theorem runPipeline_revObj (doc : ExtractionDoc) (com : String) (o : Option Json)
    (kvs : List (String × Json)) (ho : determineRevTypes o = .obj kvs) :
    ∃ r, runPipeline none o com doc = .ok r ∧
      r.revType1 = jsonGetD kvs "revType1" (.str Constants.REV_TYPE1_LOGCOM) ∧
      r.revType2 = jsonGetD kvs "revType2" (.str Constants.REV_TYPE2_HOUSE) ∧
      r.revType3 = jsonGetD kvs "revType3" (.str Constants.REV_TYPE3_IN) ∧
      r.revType4 = jsonGetD kvs "revType4" (.str Constants.REV_TYPE4_OTR) := by
  obtain ⟨stops, hstops⟩ := processStops_fallback doc
  obtain ⟨r, hr, h1, h2, h3, h4⟩ :=
    createTmsRequest_fallback doc stops kvs (determineCommodity com)
  refine ⟨r, ?_, h1, h2, h3, h4⟩
  have hrw : runPipeline none o com doc =
      Except.bind (processStops (fallbackEntityMappings doc) doc) (fun stop_data =>
        createTmsRequest doc (fallbackEntityMappings doc) stop_data (determineRevTypes o)
          (determineCommodity com)) := rfl
  rw [hrw, hstops, ho]
  exact hr

/-- The empty extraction document. -/
def docEmpty : ExtractionDoc := {}

/-- An entity-resolution oracle response that parses as JSON but is missing
    the shipper_codes key. -/
def missingKeyJson : Json :=
  .obj [("customer_code", .str "ABCD"), ("receiver_codes", .arr [])]

/-- Claim C3 as stated is refuted: an entity-resolution response that parses
    as JSON but is missing the shipper code list is stored verbatim, and the
    later request-assembly stage raises a KeyError that propagates out of the
    pipeline: no request is produced. -/
theorem c3_counterexample :
    runPipeline (some missingKeyJson) none "" docEmpty =
      .error (.keyError "shipper_codes") := rfl

/-- Claim C3 (amended): entity-resolution oracle failures that raise at the
    call site (network errors and malformed non-JSON text, both surfacing as a
    json.loads failure) are caught and replaced by the deterministic fallback
    mapping, and the pipeline then runs to completion: for every document and
    every commodity response a request is produced (with the revenue-type
    oracle also at its caught failure mode).  A parsed JSON response missing
    an expected key, however, fails later (see the counterexample). -/
theorem c3_oracle_failure_contained (doc : ExtractionDoc) (com : String) :
    ∃ r, runPipeline none none com doc = .ok r := by
  obtain ⟨r, hr, _, _, _, _⟩ := runPipeline_revObj doc com none
    [("revType1", .str Constants.REV_TYPE1_LOGCOM),
     ("revType2", .str Constants.REV_TYPE2_HOUSE),
     ("revType3", .str Constants.REV_TYPE3_IN),
     ("revType4", .str Constants.REV_TYPE4_OTR)] rfl
  exact ⟨r, hr⟩

/-- Claim C5 as stated is refuted: a revenue-type oracle response that parses
    as JSON but carries only revType1 produces a mixed final tuple: revType1
    from the oracle, revType2..4 from the per-field defaults. -/
theorem c5_counterexample :
    (runPipeline none (some (.obj [("revType1", .str "STAND")])) "" docEmpty).map
      (fun r => (r.revType1, r.revType2, r.revType3, r.revType4)) =
      .ok (Json.str "STAND", Json.str "HOUSE", Json.str "IN", Json.str "OTR") ∧
    ("STAND" : String) ≠ "LOGCOM" := ⟨rfl, by decide⟩

/-- Claim C5 (amended): the all-four-defaults fallback is atomic only for
    responses whose json.loads raises (the revenue-type stage except branch);
    a response that parses as a JSON object yields each of the four fields
    independently: the oracle's value when the key is present, the fixed
    default otherwise, so a partial mix can occur. -/
theorem c5_rev_type_fallback (doc : ExtractionDoc) (com : String) :
    (∃ r, runPipeline none none com doc = .ok r ∧
      r.revType1 = .str Constants.REV_TYPE1_LOGCOM ∧
      r.revType2 = .str Constants.REV_TYPE2_HOUSE ∧
      r.revType3 = .str Constants.REV_TYPE3_IN ∧
      r.revType4 = .str Constants.REV_TYPE4_OTR) ∧
    ∀ kvs : List (String × Json),
      ∃ r, runPipeline none (some (.obj kvs)) com doc = .ok r ∧
        r.revType1 = jsonGetD kvs "revType1" (.str Constants.REV_TYPE1_LOGCOM) ∧
        r.revType2 = jsonGetD kvs "revType2" (.str Constants.REV_TYPE2_HOUSE) ∧
        r.revType3 = jsonGetD kvs "revType3" (.str Constants.REV_TYPE3_IN) ∧
        r.revType4 = jsonGetD kvs "revType4" (.str Constants.REV_TYPE4_OTR) := by
  constructor
  · obtain ⟨r, hr, h1, h2, h3, h4⟩ := runPipeline_revObj doc com none
      [("revType1", .str Constants.REV_TYPE1_LOGCOM),
       ("revType2", .str Constants.REV_TYPE2_HOUSE),
       ("revType3", .str Constants.REV_TYPE3_IN),
       ("revType4", .str Constants.REV_TYPE4_OTR)] rfl
    exact ⟨r, hr, by rw [h1]; rfl, by rw [h2]; rfl, by rw [h3]; rfl, by rw [h4]; rfl⟩
  · intro kvs
    exact runPipeline_revObj doc com (some (.obj kvs)) kvs rfl
